import Mathlib

/- Verification of the datasketch MinHash engine (src/datasketch/minhash.py) and its
immutable variant (src/datasketch/immutable_minhash.py) in a shallow embedding.

Conventions of the embedding:
  - Byte strings are lists of naturals below 256; machine integers are Nat/Int with
    explicit reductions modulo powers of two where numpy uint64 arithmetic wraps.
  - Fallible operations return Except Err; the Err constructor names mirror the
    Python exception classes that the source raises.  The error kinds of the
    specification map onto them as follows: ConfigError, StateError and SizeError
    are the ValueError raises of minhash.py (and the TypeError raises of
    immutable_minhash.py for mutations on the immutable variant); NameError,
    AttributeError and the struct module errors keep their Python names.
  - The digest collaborator (the hashobj parameter, sha1 by default) is an external
    pluggable function; sketches store an identifier for it and theorems take the
    interpretation digestFn from identifiers to byte functions as a parameter.
  - The pseudo random generator collaborator (random.Random) is, as in the
    specification, an external deterministic function gen from a seed and a count
    to the transposed parameter rows.  -/

/- Error values; each constructor stands for the Python exception of the same name. -/
inductive Err where
  | valueError
  | typeError
  | nameError
  | attributeError
  | structError
deriving DecidableEq

/- Little endian value of a byte list, as struct.unpack reads it; entries are bytes. -/
def leNat (l : List Nat) : Nat :=
  l.foldr (fun b acc => b % 256 + 256 * acc) 0

/- Little endian byte list of width k for a value, as struct.pack writes it. -/
def toLE (k v : Nat) : List Nat :=
  match k with
  | 0 => []
  | Nat.succ k => v % 256 :: toLE k (v / 256)

/- Two complement 64 bit encoding of a signed integer (the q format). -/
def intToLE64 (i : Int) : List Nat :=
  toLE 8 ((i % ((2 : Int) ^ 64)).toNat)

/- Identifier of the default digest collaborator (hashlib sha1). -/
def sha1Id : Nat := 0

/- State of a live sketch, minhash.py.  The permutations field holds the transposed
parameter array of generate_permutations: the pair of the multiplier row and the
offset row, so that the first component plays the role of permutations[0] in the
source.  hashvalues entries are uint64 values (kept below 2 ^ 64). -/
structure MinHash where
  seed : Int
  hashobj : Nat
  finalized : Bool
  hashvalues : List Nat
  permutations : Option (List Nat × List Nat)
deriving DecidableEq

namespace MinHash

/- MinHash.__init__.  The num_perm bound check comes first; hash values are adopted
(converted to uint64) or initialised to the sentinel 2 ^ 32 - 1.  With finalized
true and no permutations the construction succeeds and stores none.  The two
non finalized branches reproduce the source faithfully: the branch that receives
permutations calls load_permutations, which dereferences self.permutations before
that slot was ever assigned (AttributeError); the branch without permutations calls
generate_permutations as a module level name, which does not exist (NameError). -/
def init (num_perm : Nat) (seed : Int) (hashobj : Nat) (hashvalues : Option (List Nat))
    (permutations : Option (List Nat × List Nat)) (finalized : Bool) : Except Err MinHash :=
  if 2 ^ 32 < num_perm then .error .valueError
  else
    let hv := match hashvalues with
      | some l => l.map (· % 2 ^ 64)
      | none => List.replicate num_perm (2 ^ 32 - 1)
    if finalized then
      match permutations with
      | some _ => .error .valueError
      | none => .ok ⟨seed, hashobj, true, hv, none⟩
    else
      match permutations with
      | some _ => .error .attributeError
      | none => .error .nameError

/- MinHash.update.  With no permutations it raises ValueError (the StateError of the
specification).  Otherwise the first four digest bytes are read as an unsigned
little endian 32 bit integer and each slot becomes the minimum of its previous
value and ((a * hv + b) % mersenne_prime) & max_hash, where the products are numpy
uint64 arithmetic and therefore wrap modulo 2 ^ 64 before the Mersenne reduction.
A digest shorter than four bytes fails at struct.unpack; parameter rows whose
length does not match the hash value vector fail at the numpy broadcast (the
degenerate length one broadcast is not reached by any state of this development). -/
def update (digestFn : Nat → List Nat → List Nat) (m : MinHash) (b : List Nat) :
    Except Err MinHash :=
  match m.permutations with
  | none => .error .valueError
  | some ps =>
    let d := digestFn m.hashobj b
    if d.length < 4 then .error .structError
    else
      let hv := leNat (d.take 4)
      if ps.1.length = ps.2.length ∧ ps.1.length = m.hashvalues.length then
        let phv := List.zipWith
          (fun a c => ((a * hv + c) % 2 ^ 64 % (2 ^ 61 - 1)) &&& (2 ^ 32 - 1)) ps.1 ps.2
        .ok { m with hashvalues := List.zipWith min phv m.hashvalues }
      else .error .valueError

/- MinHash.merge: seed check, then length check, then elementwise minimum into the
receiver.  The digest collaborator identifiers are not compared. -/
def merge (m other : MinHash) : Except Err MinHash :=
  if other.seed ≠ m.seed then .error .valueError
  else if m.hashvalues.length ≠ other.hashvalues.length then .error .valueError
  else .ok { m with hashvalues := List.zipWith min other.hashvalues m.hashvalues }

/- MinHash.union: arity check, seed and slot count checks against the first input,
then the reduced elementwise minimum is handed to the constructor with the default
hashobj, no permutations and finalized false; that constructor branch raises
NameError (see init). -/
def union (mhs : List MinHash) : Except Err MinHash :=
  if mhs.length < 2 then .error .valueError
  else
    match mhs with
    | [] => .error .valueError
    | m0 :: rest =>
      let num_perm := m0.hashvalues.length
      let seed := m0.seed
      if (mhs.any fun m => decide (seed ≠ m.seed)) ||
          (mhs.any fun m => decide (num_perm ≠ m.hashvalues.length)) then .error .valueError
      else
        let hv := rest.foldl (fun acc m => List.zipWith min acc m.hashvalues) m0.hashvalues
        init num_perm seed sha1Id (some hv) none false

/- MinHash.load_permutations.  The source validates len(self) against
len(self.permutations[0]), the first row of the CURRENT parameters, not of the
argument: on a finalized sketch self.permutations is None and subscripting it
raises TypeError; on a live sketch the check compares the existing rows, so any
argument is adopted and finalized is cleared. -/
def load_permutations (m : MinHash) (perms : List Nat × List Nat) : Except Err MinHash :=
  match m.permutations with
  | none => .error .typeError
  | some cur =>
    if m.hashvalues.length ≠ cur.1.length then .error .valueError
    else .ok { m with permutations := some perms, finalized := false }

/- MinHash.generate_permutations.  The generator collaborator gen abstracts
random.Random (seed to transposed parameter rows).  The source seeds the generator
with self.seed, ignoring the seed argument, and returns the array; it assigns
neither self.permutations nor self.finalized, so the sketch is unchanged. -/
def generate_permutations (gen : Int → Nat → List Nat × List Nat) (m : MinHash)
    (_seed : Int) (num_perm : Nat) : List Nat × List Nat :=
  gen m.seed num_perm

/- MinHash.bytesize: 8 byte seed, 4 byte count, 4 bytes per hash value, 1 byte flag. -/
def bytesize (m : MinHash) : Nat :=
  8 + 4 + 4 * m.hashvalues.length + 1

/- MinHash.serialize.  The buffer size check raises ValueError (the SizeError of
the specification); struct.pack_into then requires the seed in the signed 64 bit
range, the count in the signed 32 bit range and every hash value below 2 ^ 32, and
writes the fields little endian at offset 0, leaving the tail of the buffer. -/
def serialize (m : MinHash) (buf : List Nat) : Except Err (List Nat) :=
  if buf.length < m.bytesize then .error .valueError
  else if m.seed < -(2 ^ 63) ∨ (2 : Int) ^ 63 ≤ m.seed then .error .structError
  else if 2 ^ 31 ≤ m.hashvalues.length then .error .structError
  else if m.hashvalues.any (fun v => decide (2 ^ 32 ≤ v)) then .error .structError
  else .ok (intToLE64 m.seed ++ toLE 4 m.hashvalues.length ++
    m.hashvalues.foldr (fun v acc => toLE 4 v ++ acc) [] ++
    [if m.finalized then 1 else 0] ++ buf.drop m.bytesize)

/- MinHash.deserialize.  Reads the 12 byte header (signed seed, signed count), the
count many unsigned 32 bit values, and leniently the trailing flag byte (absent
means false); then reconstructs through the constructor, whose non finalized branch
raises NameError (see init).  A negative count makes an invalid format and a short
buffer fails the mandatory unpack, both struct errors. -/
def deserialize (buf : List Nat) : Except Err MinHash :=
  if buf.length < 12 then .error .structError
  else
    let seedU := leNat (buf.take 8)
    let seed : Int := if seedU < 2 ^ 63 then (seedU : Int) else (seedU : Int) - 2 ^ 64
    let npU := leNat ((buf.drop 8).take 4)
    if 2 ^ 31 ≤ npU then .error .structError
    else if buf.length < 12 + 4 * npU then .error .structError
    else
      let hvs := (List.range npU).map fun i => leNat ((buf.drop (12 + 4 * i)).take 4)
      let fin : Bool := if 12 + 4 * npU + 1 ≤ buf.length then
        decide (buf.getD (12 + 4 * npU) 0 ≠ 0) else false
      init npU seed sha1Id (some hvs) none fin

end MinHash

/- Python values that flow through the immutable variant slot initialiser.  pyInt
and pyFunc carry a seed integer and a digest collaborator identifier; pyList a
hash value vector; pySlotName n stands for the n-th slot NAME string of
ImmutableMinHash.__slots__ (0 seed, 1 hashvalues, 2 hashobj). -/
inductive PyVal where
  | pyInt : Int → PyVal
  | pySlotName : Nat → PyVal
  | pyList : List Nat → PyVal
  | pyFunc : Nat → PyVal
deriving DecidableEq

/- State of the immutable variant, immutable_minhash.py: exactly the three slots its
initialiser assigns.  The finalized slot inherited from MinHash is never assigned
anywhere in the class, which the serialisation model below relies on. -/
structure ImmutableMinHash where
  seed : PyVal
  hashvalues : List Nat
  hashobj : PyVal
deriving DecidableEq

namespace ImmutableMinHash

/- MinHash._parse_hashvalues as reached from the immutable variant:
np.array(x, dtype=np.uint64) converts a list of integers and raises ValueError on a
string (the slot name case); no other value reaches it from this module. -/
def parseHashvalues : PyVal → Except Err (List Nat)
  | .pyList l => .ok (l.map (· % 2 ^ 64))
  | _ => .error .valueError

/- ImmutableMinHash._initialize_slots: stores the seed, the parsed hash values and
the digest collaborator. -/
def initSlots (seed hashvalues hashobj : PyVal) : Except Err ImmutableMinHash :=
  (parseHashvalues hashvalues).map fun hv => ⟨seed, hv, hashobj⟩

/- ImmutableMinHash.__init__: copies seed, hash values and hashobj from the source
sketch into the slots. -/
def init (m : MinHash) : Except Err ImmutableMinHash :=
  initSlots (.pyInt m.seed) (.pyList m.hashvalues) (.pyFunc m.hashobj)

/- ImmutableMinHash.copy calls imh._initialize_slots(*self.__slots__): the splat
passes the three slot NAME strings, not the stored field values, so the hash value
parse receives a string and raises ValueError. -/
def copy (_m : ImmutableMinHash) : Except Err ImmutableMinHash :=
  initSlots (.pySlotName 0) (.pySlotName 1) (.pySlotName 2)

/- ImmutableMinHash.update raises TypeError unconditionally, before touching state. -/
def update (_m : ImmutableMinHash) (_b : List Nat) : Except Err ImmutableMinHash :=
  .error .typeError

/- ImmutableMinHash.merge raises TypeError unconditionally, before touching state. -/
def merge (_m _other : ImmutableMinHash) : Except Err ImmutableMinHash :=
  .error .typeError

/- Inherited MinHash.bytesize on the immutable state. -/
def bytesize (m : ImmutableMinHash) : Nat :=
  8 + 4 + 4 * m.hashvalues.length + 1

/- Inherited MinHash.serialize on the immutable state: after the buffer size check
it evaluates self.finalized among the struct.pack_into arguments; that slot is
never initialised by the immutable class, so the attribute lookup raises
AttributeError before any byte is written. -/
def serialize (m : ImmutableMinHash) (buf : List Nat) : Except Err (List Nat) :=
  if buf.length < m.bytesize then .error .valueError
  else .error .attributeError

end ImmutableMinHash

/- Concrete collaborators and states used by the closed theorems below. -/

/- A digest collaborator returning the constant four byte digest FF FF FF FF. -/
def dCex : Nat → List Nat → List Nat := fun _ _ => [255, 255, 255, 255]

/- A live sketch with one slot, multiplier 2 ^ 33 and offset 0. -/
def mCex : MinHash := ⟨0, 0, false, [4294967295], some ([8589934592], [0])⟩

/- A digest collaborator returning the constant four byte digest 01 00 00 00. -/
def dW : Nat → List Nat → List Nat := fun _ _ => [1, 0, 0, 0]

/- A live sketch with one slot of value 10, multiplier 2 and offset 3. -/
def mW : MinHash := ⟨0, 0, false, [10], some ([2], [3])⟩

/- The sketch mW after one update through dW: the permuted value is 5. -/
def mW2 : MinHash := ⟨0, 0, false, [5], some ([2], [3])⟩

/- A generator collaborator whose rows depend visibly on the seed. -/
def genW : Int → Nat → List Nat × List Nat :=
  fun s n => (List.replicate n (1 + s.natAbs), List.replicate n 0)

/- A live sketch as the codec claims consider: seed 1, one slot of value 7. -/
def mLive : MinHash := ⟨1, sha1Id, false, [7], some ([1], [0])⟩

/- A finalized sketch, seed 1, one slot of value 3. -/
def mFinA : MinHash := ⟨1, sha1Id, true, [3], none⟩

/- A finalized sketch, seed 1, one slot of value 5. -/
def mFinB : MinHash := ⟨1, sha1Id, true, [5], none⟩

/- A finalized sketch with digest collaborator 0, seed 1, one slot of value 5. -/
def mHashA : MinHash := ⟨1, 0, true, [5], none⟩

/- A finalized sketch with digest collaborator 1, seed 1, one slot of value 3. -/
def mHashB : MinHash := ⟨1, 1, true, [3], none⟩

/- A finalized sketch with seed 2, one slot of value 5. -/
def mHashC : MinHash := ⟨2, 0, true, [5], none⟩

/- Helper lemmas on list operations. -/

/- Reading an index below both lengths through zipWith. -/
theorem getD_zipWith (f : Nat → Nat → Nat) :
    ∀ (xs ys : List Nat) (i : Nat), i < xs.length → i < ys.length →
      (List.zipWith f xs ys).getD i 0 = f (xs.getD i 0) (ys.getD i 0)
  | [], _, _, hx, _ => by simp at hx
  | _ :: _, [], _, _, hy => by simp at hy
  | x :: xs, y :: ys, 0, _, _ => rfl
  | x :: xs, y :: ys, i + 1, hx, hy => by
    simp only [List.zipWith_cons_cons, List.getD_cons_succ]
    exact getD_zipWith f xs ys i (by simpa using hx) (by simpa using hy)

/- Taking the elementwise minimum against the same left operand twice is the same
as taking it once. -/
theorem zipWith_min_idem : ∀ (xs ys : List Nat),
    List.zipWith min xs (List.zipWith min xs ys) = List.zipWith min xs ys
  | [], _ => rfl
  | _ :: _, [] => rfl
  | x :: xs, y :: ys => by
    simp only [List.zipWith_cons_cons, zipWith_min_idem xs ys]
    rw [← min_assoc, min_self]

/- Claim theorems. -/

/-- Claim C1, counterexample.  At a live sketch with one slot, multiplier 2 ^ 33,
offset 0, previous value 2 ^ 32 - 1, and a digest whose first four bytes read as
2 ^ 32 - 1, update stores 7, while the formula of the claim — the product reduced
modulo 2 ^ 61 - 1 without the 64 bit wraparound, then masked — gives 15. -/
theorem update_mod64_counterexample :
    MinHash.update dCex mCex [0] =
      Except.ok ⟨0, 0, false, [7], some ([8589934592], [0])⟩ ∧
    min 4294967295 (((8589934592 * 4294967295 + 0) % (2 ^ 61 - 1)) &&& (2 ^ 32 - 1)) = 15 ∧
    (7 : Nat) ≠ 15 :=
  ⟨rfl, by decide, by decide⟩

/-- Claim C2 (code bug).  Serializing the live sketch mLive (seed 1, one slot of
value 7, permutations present, finalized false) into a 17 byte buffer succeeds, but
deserializing the produced buffer raises NameError instead of reproducing the
sketch: the reconstruction runs MinHash.__init__ with finalized false, whose
permutation generating branch calls generate_permutations as a module level name
that does not exist. -/
theorem serialize_roundtrip_name_error :
    Except.bind (MinHash.serialize mLive (List.replicate 17 0)) MinHash.deserialize =
      Except.error Err.nameError := rfl

/-- Claim C3 (code bug).  With two finalized sketches of equal seed and slot count,
union passes its arity and compatibility checks and computes the elementwise
minimum, but then raises NameError instead of returning the new sketch, because the
result is built through MinHash.__init__ with finalized false (see C2).  The arity
check itself does fail with ValueError on a single input. -/
theorem union_name_error :
    MinHash.union [mFinA, mFinB] = Except.error Err.nameError ∧
    MinHash.union [mFinA] = Except.error Err.valueError :=
  ⟨rfl, rfl⟩

/-- Claim C4 (code bug).  load_permutations validates len(self) against the first
row of the current self.permutations instead of the argument: on a finalized sketch
(permutations absent) it raises TypeError even though the argument has matching
length, and on a live one slot sketch it adopts two slot parameters without any
ConfigError, clearing the finalized flag. -/
theorem load_permutations_misvalidation :
    MinHash.load_permutations mFinA ([1], [0]) = Except.error Err.typeError ∧
    MinHash.load_permutations mLive ([1, 2], [3, 4]) =
      Except.ok ⟨1, sha1Id, false, [7], some ([1, 2], [3, 4])⟩ :=
  ⟨rfl, rfl⟩

/-- Claim C5 (code bug).  generate_permutations seeds the generator collaborator
with the seed stored in the sketch, not with its seed argument: called with seed
argument 2 on a sketch whose stored seed is 1, it returns the rows for seed 1,
which differ from the rows for seed 2 under the concrete collaborator genW.  It
also returns the rows without assigning the permutations or the finalized flag. -/
theorem generate_permutations_ignores_seed :
    MinHash.generate_permutations genW mFinA 2 4 = genW 1 4 ∧
    MinHash.generate_permutations genW mFinA 2 4 ≠ genW 2 4 :=
  ⟨rfl, by decide⟩

/-- Claim C6, counterexample.  The sketches mHashA and mHashB carry different
digest collaborator identifiers (0 and 1) but equal seed and slot count; merge
succeeds and combines the hash values instead of failing with ConfigError. -/
theorem merge_ignores_hashobj_counterexample :
    mHashA.hashobj ≠ mHashB.hashobj ∧ mHashA.seed = mHashB.seed ∧
    mHashA.hashvalues.length = mHashB.hashvalues.length ∧
    MinHash.merge mHashA mHashB = Except.ok ⟨1, 0, true, [3], none⟩ :=
  ⟨by decide, rfl, rfl, rfl⟩

/-- Claim C7 (confirmed).  On the immutable variant, update and merge fail
unconditionally with TypeError — the StateError of the specification for mutations
on an immutable sketch — and never return a modified sketch, so the stored seed,
hash values and digest identifier are untouched. -/
theorem immutable_update_merge_reject (m other : ImmutableMinHash) (b : List Nat) :
    ImmutableMinHash.update m b = Except.error Err.typeError ∧
    ImmutableMinHash.merge m other = Except.error Err.typeError :=
  ⟨rfl, rfl⟩

/-- Claim C8 (code bug).  An immutable sketch built from the live sketch mLive,
serialized into a buffer of exactly its byte size (17), raises AttributeError
instead of succeeding: the inherited serializer evaluates self.finalized among the
pack arguments and the immutable class never initialises that slot. -/
theorem immutable_serialize_attribute_error :
    ImmutableMinHash.init mLive = Except.ok ⟨PyVal.pyInt 1, [7], PyVal.pyFunc sha1Id⟩ ∧
    ImmutableMinHash.bytesize ⟨PyVal.pyInt 1, [7], PyVal.pyFunc sha1Id⟩ = 17 ∧
    ImmutableMinHash.serialize ⟨PyVal.pyInt 1, [7], PyVal.pyFunc sha1Id⟩
        (List.replicate 17 0) = Except.error Err.attributeError :=
  ⟨rfl, rfl, rfl⟩

/-- Claim C9 (code bug).  copy on a concrete immutable sketch raises ValueError
instead of returning an identical snapshot: the call splats the slot name strings
into the slot initialiser, whose hash value parse rejects a string. -/
theorem immutable_copy_value_error :
    ImmutableMinHash.copy ⟨PyVal.pyInt 1, [3], PyVal.pyFunc 0⟩ =
      Except.error Err.valueError := rfl

/-- Claim C1, amended (proved).  With the permutation parameters absent, update
fails with ValueError (the StateError of the specification) and returns no state.
With parameter rows of matching length and a digest of at least four bytes, update
succeeds and sets every slot i to the minimum of its previous value and
((a_i * h + b_i) mod 2 ^ 64 mod (2 ^ 61 - 1)) masked to the low 32 bits, where the
mod 2 ^ 64 is the numpy uint64 wraparound of the products and h is the unsigned
little endian 32 bit reading of the first four digest bytes; seed, digest
identifier, finalized flag and parameters are unchanged. -/
theorem update_spec_amended (digestFn : Nat → List Nat → List Nat) (m : MinHash)
    (b : List Nat) :
    (m.permutations = none → MinHash.update digestFn m b = Except.error Err.valueError) ∧
    (∀ ps : List Nat × List Nat, m.permutations = some ps →
      ps.1.length = ps.2.length → ps.1.length = m.hashvalues.length →
      4 ≤ (digestFn m.hashobj b).length →
      ∃ m2 : MinHash, MinHash.update digestFn m b = Except.ok m2 ∧
        m2.seed = m.seed ∧ m2.hashobj = m.hashobj ∧ m2.finalized = m.finalized ∧
        m2.permutations = m.permutations ∧
        m2.hashvalues.length = m.hashvalues.length ∧
        ∀ i : Nat, i < m.hashvalues.length →
          m2.hashvalues.getD i 0 =
            min (m.hashvalues.getD i 0)
              (((ps.1.getD i 0 * leNat ((digestFn m.hashobj b).take 4) + ps.2.getD i 0)
                  % 2 ^ 64 % (2 ^ 61 - 1)) &&& (2 ^ 32 - 1))) := by
  constructor
  · intro h
    simp only [MinHash.update, h]
  · intro ps hp h12 h1n h4
    refine ⟨{ m with hashvalues := List.zipWith min (List.zipWith
        (fun a c => ((a * leNat ((digestFn m.hashobj b).take 4) + c) % 2 ^ 64 % (2 ^ 61 - 1))
          &&& (2 ^ 32 - 1)) ps.1 ps.2) m.hashvalues }, ?_, rfl, rfl, rfl, rfl, ?_, ?_⟩
    · simp only [MinHash.update, hp]
      rw [if_neg (by omega), if_pos ⟨h12, h1n⟩]
    · simp only [List.length_zipWith]
      omega
    · intro i hi
      rw [getD_zipWith _ _ _ i (by simp only [List.length_zipWith]; omega) hi,
        getD_zipWith _ _ _ i (by omega) (by omega)]
      exact min_comm _ _

/-- Claim C1, witness.  The StateError branch at the finalized sketch mFinA, and
the update formula at the live sketch mW through the digest collaborator dW. -/
theorem update_spec_amended_witness :
    MinHash.update dW mFinA [0] = Except.error Err.valueError ∧
    ∃ m2 : MinHash, MinHash.update dW mW [0] = Except.ok m2 ∧
      m2.seed = mW.seed ∧ m2.hashobj = mW.hashobj ∧ m2.finalized = mW.finalized ∧
      m2.permutations = mW.permutations ∧
      m2.hashvalues.length = mW.hashvalues.length ∧
      ∀ i : Nat, i < mW.hashvalues.length →
        m2.hashvalues.getD i 0 =
          min (mW.hashvalues.getD i 0)
            (((([2] : List Nat).getD i 0 * leNat ((dW mW.hashobj [0]).take 4) +
                ([3] : List Nat).getD i 0) % 2 ^ 64 % (2 ^ 61 - 1)) &&& (2 ^ 32 - 1)) :=
  ⟨(update_spec_amended dW mFinA [0]).1 rfl,
   (update_spec_amended dW mW [0]).2 ([2], [3]) rfl rfl rfl (by decide)⟩

/-- Claim C6, amended (proved).  merge fails with ValueError (the ConfigError of
the specification) exactly when the seeds or the slot counts differ; the digest
collaborator identifiers are never compared, so any two sketches with equal seed
and slot count — in particular two sketches differing only in digest algorithm —
are merged, the receiver hash values becoming the elementwise minimum. -/
theorem merge_spec_amended (m other : MinHash) :
    (other.seed ≠ m.seed ∨ m.hashvalues.length ≠ other.hashvalues.length →
      MinHash.merge m other = Except.error Err.valueError) ∧
    (other.seed = m.seed → m.hashvalues.length = other.hashvalues.length →
      MinHash.merge m other =
        Except.ok { m with hashvalues := List.zipWith min other.hashvalues m.hashvalues }) := by
  constructor
  · rintro (h | h)
    · simp only [MinHash.merge, if_pos h]
    · by_cases hs : other.seed ≠ m.seed
      · simp only [MinHash.merge, if_pos hs]
      · simp only [MinHash.merge, if_neg hs, if_pos h]
  · intro h1 h2
    have hs : ¬other.seed ≠ m.seed := by simp [h1]
    have hl : ¬m.hashvalues.length ≠ other.hashvalues.length := by simp [h2]
    simp only [MinHash.merge, if_neg hs, if_neg hl]

/-- Claim C6, witness.  The sketches mHashA and mHashB differ only in digest
identifier and merge successfully; mHashC differs in seed and is rejected. -/
theorem merge_spec_amended_witness :
    MinHash.merge mHashA mHashB = Except.ok ⟨1, 0, true, [3], none⟩ ∧
    MinHash.merge mHashA mHashC = Except.error Err.valueError :=
  ⟨(merge_spec_amended mHashA mHashB).2 rfl rfl,
   (merge_spec_amended mHashA mHashC).1 (Or.inl (by decide))⟩

/-- Claim C10 (confirmed).  Updating a second time with the same byte string is a
no op: whenever update succeeds, running it again on its result with the same
input returns that result unchanged, because the permuted values depend only on
the parameters, the digest collaborator and the input, none of which the first
update changed, and the elementwise minimum is idempotent. -/
theorem update_idempotent (digestFn : Nat → List Nat → List Nat) (m : MinHash)
    (b : List Nat) (m2 : MinHash) (h : MinHash.update digestFn m b = Except.ok m2) :
    MinHash.update digestFn m2 b = Except.ok m2 := by
  cases hp : m.permutations with
  | none =>
    simp only [MinHash.update, hp] at h
    exact Except.noConfusion h
  | some ps =>
    simp only [MinHash.update, hp] at h
    by_cases h4 : (digestFn m.hashobj b).length < 4
    · rw [if_pos h4] at h
      exact Except.noConfusion h
    · rw [if_neg h4] at h
      by_cases hc : ps.1.length = ps.2.length ∧ ps.1.length = m.hashvalues.length
      · rw [if_pos hc] at h
        obtain ⟨hc1, hc2⟩ := hc
        injection h with hm2
        subst hm2
        simp only [MinHash.update, hp]
        rw [if_neg h4, if_pos ⟨hc1, by simp only [List.length_zipWith]; omega⟩,
          zipWith_min_idem]
      · rw [if_neg hc] at h
        exact Except.noConfusion h

/-- Claim C10, witness.  One update of mW through dW yields mW2, and the repeated
update returns mW2 again. -/
theorem update_idempotent_witness :
    MinHash.update dW mW [0] = Except.ok mW2 ∧
    MinHash.update dW mW2 [0] = Except.ok mW2 :=
  ⟨rfl, update_idempotent dW mW [0] mW2 rfl⟩
